import Mathlib

/-
Verification of the Genesis generation-request pipeline.

The repository is a Vue 3 frontend (frontend/src/App.vue holds two UI
component iterations, referred to below as UiOne and UiTwo) together with
configuration and documentation for a FastAPI backend.  The frontend
component state, computed properties and methods are embedded below
directly from the source.  The backend dispatcher, async job poller and
genre-and-prompt resolver are not shipped under src/ (only their
documentation, deployment files and the genre prompt table are), so those
definitions are modelled from the specification, as marked on each one.
-/

/-- JS String.prototype.trim: removes leading and trailing whitespace.
    Defined structurally over the character list so it evaluates in the
    kernel (the library String.trim is defined by well-founded recursion
    and does not reduce). -/
def jsTrim (s : String) : String :=
  String.mk (((s.data.dropWhile Char.isWhitespace).reverse.dropWhile
    Char.isWhitespace).reverse)

/-- JS String.prototype.toLowerCase, structurally over the character list
    (the library String.toLower is defined through a well-founded map and
    does not reduce in the kernel). -/
def jsToLower (s : String) : String :=
  String.mk (s.data.map Char.toLower)

namespace UiOne

/-- One entry of the static genre list of the first UI
    (App.vue, data.genres, lines 220-238). -/
structure Genre where
  id : String
  name : String
deriving Repr, DecidableEq

/-- The static 17-entry genre list of the first UI (App.vue lines 220-238),
    transcribed verbatim, including the misspelled Eletronic entry. -/
def genres : List Genre :=
  [ { id := "country", name := "Country" },
    { id := "pop", name := "Pop" },
    { id := "hip-hop", name := "Hip-hop" },
    { id := "rap", name := "Rap" },
    { id := "heavy-metal", name := "Heavy metal" },
    { id := "jazz", name := "Jazz" },
    { id := "folk", name := "Folk" },
    { id := "eletronic", name := "Eletronic" },
    { id := "blues", name := "Blues" },
    { id := "punk", name := "Punk" },
    { id := "disco", name := "Disco" },
    { id := "soul", name := "Soul" },
    { id := "rock", name := "Rock" },
    { id := "grunge", name := "Grunge" },
    { id := "opera", name := "Opera" },
    { id := "k-pop", name := "K-pop" },
    { id := "rock-and-roll", name := "Rock and roll" } ]

/-- Component state of the first UI (App.vue data(), lines 198-239).
    Audio times are modelled as rationals (JS numbers). -/
structure State where
  learningTopic : String
  genreInput : String
  selectedGenre : String
  uploadedFile : Option String
  isLoading : Bool
  showMoreGenres : Bool
  lyricsExpanded : Bool
  songTitle : String
  songDescription : String
  audioUrl : String
  lyrics : String
  isPlaying : Bool
  audioDuration : ℚ
  currentAudioTime : ℚ
  isLooping : Bool
deriving Repr, DecidableEq

/-- The initial component state of the first UI, exactly as the data()
    literal initialises it (App.vue lines 198-218): note the hardcoded
    sample lyrics, the placeholder song title and the 63-second duration
    present before any request is made. -/
def initData : State :=
  { learningTopic := ""
    genreInput := ""
    selectedGenre := "hip-hop"
    uploadedFile := none
    isLoading := false
    showMoreGenres := false
    lyricsExpanded := false
    songTitle := "Song Title"
    songDescription := "The why, and how this will benefit you"
    audioUrl := ""
    lyrics := "Psst, I see dead people\n(Mustard on the beat, ho)\nAyy, Mustard on the beat, ho"
    isPlaying := false
    audioDuration := 63
    currentAudioTime := 0
    isLooping := false }

/-- Helper for the JS substring test hay.includes(needle): true when the
    needle occurs contiguously in the haystack character list. -/
def strContainsAux (needle : List Char) : List Char → Bool
  | [] => needle.isEmpty
  | c :: rest => needle.isPrefixOf (c :: rest) || strContainsAux needle rest

/-- JS hay.includes(needle) on strings. -/
def jsIncludes (hay needle : String) : Bool :=
  strContainsAux needle.data hay.data

/-- The displayedGenres computed property (App.vue lines 241-250):
    all genres when the trimmed search input is empty, otherwise the
    genres whose lowercased name includes the lowercased input. -/
def displayedGenres (s : State) : List Genre :=
  if jsTrim s.genreInput = "" then genres
  else genres.filter (fun g => jsIncludes (jsToLower g.name) (jsToLower s.genreInput))

/-- The progressPercentage computed property (App.vue lines 260-263):
    guarded so the division only happens when audioDuration is nonzero. -/
def progressPercentage (s : State) : ℚ :=
  if s.audioDuration = 0 then 0
  else s.currentAudioTime / s.audioDuration * 100

/-- Body of the JSON request generateMusic sends (App.vue lines 355-359). -/
structure MusicRequestBody where
  learning_topic : String
  genre : String
  model : String
deriving Repr, DecidableEq

/-- Observable effects of one click of the first UI Compose button. -/
inductive Effect
  | alert (msg : String)
  | dispatch (body : MusicRequestBody)
deriving Repr, DecidableEq

/-- Whether an effect is a network dispatch. -/
def Effect.isDispatch : Effect → Bool
  | .dispatch _ => true
  | _ => false

/-- The effects of the generateMusic click handler (App.vue lines 316-384):
    an alert and no network call when the trimmed topic is empty, otherwise
    a dispatch of the request body; the isLoading flag is never consulted. -/
def generateMusicEffects (s : State) : List Effect :=
  if jsTrim s.learningTopic = "" then
    [Effect.alert "Please enter what you want to learn about!"]
  else
    [Effect.dispatch
      { learning_topic := s.learningTopic
        genre := s.selectedGenre
        model := "beatoven" }]

/-- What the lyrics pane renders (App.vue lines 132-133):
    the v-if lyrics branch shows the lyrics string whenever it is truthy,
    the v-else branch shows the waiting placeholder text. -/
inductive LyricsView
  | shown (text : String)
  | waitingPlaceholder
deriving Repr, DecidableEq

/-- Rendering of the lyrics pane from the component state. -/
def lyricsPane (s : State) : LyricsView :=
  if s.lyrics ≠ "" then LyricsView.shown s.lyrics
  else LyricsView.waitingPlaceholder

/-- A state with a request in flight and a nonempty topic, used to examine
    re-submission while isLoading is set. -/
def busyState : State :=
  { initData with isLoading := true, learningTopic := "thermodynamics" }

/-- A state whose genre search input is the word rock. -/
def rockSearchState : State :=
  { initData with genreInput := "rock" }

end UiOne

namespace UiTwo

/-- Component state of the second UI (App.vue data(), lines 1037-1057). -/
structure State where
  userInput : String
  learningTopic : String
  selectedModel : String
  selectedGenre : String
  selectedDuration : Nat
  output : Option String
  outputType : String
  isLoading : Bool
  songTitle : String
  videoUrl : String
  audioUrl : String
  lyricsText : String
  uploadedFile : Option String
  uploadedFileName : String
  isAudioPlaying : Bool
deriving Repr, DecidableEq

/-- The initial component state of the second UI (App.vue lines 1037-1057). -/
def initData : State :=
  { userInput := ""
    learningTopic := ""
    selectedModel := "beatoven"
    selectedGenre := "hip_hop"
    selectedDuration := 60
    output := none
    outputType := "text"
    isLoading := false
    songTitle := ""
    videoUrl := ""
    audioUrl := ""
    lyricsText := ""
    uploadedFile := none
    uploadedFileName := ""
    isAudioPlaying := false }

/-- The JSON request body processInput sends (App.vue lines 1182-1188). -/
structure RequestBody where
  input : String
  model : String
  learning_topic : String
  genre : String
  duration : Nat
deriving Repr, DecidableEq

/-- The processInput click handler (App.vue lines 1137-1214): when the
    trimmed learning topic is empty it alerts and returns with no network
    call (result none); otherwise it defaults the user input from the topic
    and dispatches the request body. The input text is never validated. -/
def processInput (s : State) : State × Option RequestBody :=
  if jsTrim s.learningTopic = "" then
    (s, none)
  else
    let userInput :=
      if jsTrim s.userInput = "" then "Create a song about " ++ s.learningTopic
      else s.userInput
    ({ s with userInput := userInput },
      some
        { input := userInput
          model := "beatoven"
          learning_topic := s.learningTopic
          genre := s.selectedGenre
          duration := s.selectedDuration })

/-- An API response object as read by handleApiResponse (App.vue lines
    1216-1230). Absent JS fields are modelled as the empty string, which
    is falsy exactly like undefined in the source || expressions. -/
structure ApiData where
  output : String
  type : String
  title : String
  lyrics : String
  video_url : String
deriving Repr, DecidableEq

/-- JS a || b on strings: b when a is falsy (empty), a otherwise. -/
def jsOr (a b : String) : String :=
  if a = "" then b else a

/-- The handleApiResponse method of the second UI (App.vue lines
    1216-1230): always stores output and outputType; only when the
    response type is music does it also set audioUrl, songTitle,
    lyricsText and videoUrl. -/
def handleApiResponse (s : State) (d : ApiData) : State :=
  let s1 := { s with output := some d.output, outputType := d.type }
  if d.type = "music" then
    { s1 with
        audioUrl := d.output
        songTitle := jsOr d.title ("Song about " ++ s1.learningTopic)
        lyricsText := jsOr d.lyrics "Lyrics not available for this song."
        videoUrl := jsOr d.video_url "" }
  else s1

/-- A state holding a nonempty input text and an empty learning topic. -/
def inputOnlyState : State :=
  { initData with userInput := "Explain photosynthesis" }

end UiTwo

namespace Mcp

/-- The four provider capability kinds of the data model (spec section 3). -/
inductive Provider
  | music
  | image
  | text
  | video
deriving Repr, DecidableEq

/-- The target provider selector of a GenerationRequest:
    auto, or an explicit provider name. -/
inductive Selector
  | auto
  | explicitName (name : String)
deriving Repr, DecidableEq

/-- A GenerationRequest as in the data model (spec section 3). -/
structure GenerationRequest where
  inputText : String
  learningTopic : String
  selector : Selector
  genre : Option String
  duration : Option Nat
  customPrompt : Option String
  attachedFile : Option String
deriving Repr, DecidableEq

/-- Common image file extensions, used by the auto-selection heuristic. -/
def imageExtensions : List String :=
  [".jpg", ".jpeg", ".png", ".gif"]

/-- Whether a file name carries an image extension. -/
def hasImageExtension (fileName : String) : Bool :=
  imageExtensions.any (fun ext => ext.data.isSuffixOf fileName.data)

/-- Whether the request carries an attached file with an image extension. -/
def fileHasImageExtension (req : GenerationRequest) : Bool :=
  match req.attachedFile with
  | some f => hasImageExtension f
  | none => false

/-- Modelled from the spec: the fixed auto-selection precedence of the
    Dispatcher (spec section 4.1); the backend app/main.py that implements
    the MCP routing is not under src/. Explicit genre or duration selects
    the music provider, else an attached file with an image extension
    selects the image provider, else the text provider. -/
def autoSelectProvider (req : GenerationRequest) : Provider :=
  if req.genre.isSome || req.duration.isSome then Provider.music
  else if fileHasImageExtension req then Provider.image
  else Provider.text

/-- The dispatcher error taxonomy needed by the claims (spec section 7). -/
inductive DispatchError
  | invalidRequest
deriving Repr, DecidableEq

/-- Modelled from the spec: the static provider name table of the
    Dispatcher (spec sections 2 and 4.1, provider names from the README);
    the backend app/main.py is not under src/. -/
def knownProviders : List (String × Provider) :=
  [ ("gpt-image-1", Provider.image),
    ("veo2", Provider.video),
    ("gemini", Provider.text),
    ("o4-mini", Provider.text),
    ("beatoven", Provider.music) ]

/-- Modelled from the spec: provider selection of the Dispatcher
    (spec section 4.1); the backend app/main.py is not under src/.
    Selector auto uses the heuristic; an explicit name is used directly
    and an unknown name fails with InvalidRequest. -/
def selectProvider (req : GenerationRequest) : Except DispatchError Provider :=
  match req.selector with
  | Selector.auto => Except.ok (autoSelectProvider req)
  | Selector.explicitName n =>
    match knownProviders.lookup n with
    | some p => Except.ok p
    | none => Except.error DispatchError.invalidRequest

/-- The five HIP_HOP candidate prompts of the genre prompt table,
    transcribed verbatim from the MUSIC_PROMPTS_BY_GENRE section of the
    CLAUDE.rules configuration (src/unnamed/part_001, lines 172-186). -/
def hipHopPrompts : List String :=
  [ "West Coast heatwave with booming 808s, funky synth bass, and distorted vocal chops — think Dr. Dre meets Travis Scott in 2025. Mood: Swagger, Dominance.",
    "Dark, cinematic trap beat layered with haunting strings, glitchy hi-hats, and bass drops that shake your bones. Mood: Gritty, Powerful.",
    "Old-school NYC boom bap with a modern twist — crunchy snares, jazzy horns, and lyrical storytelling energy. Mood: Hustle, Confidence.",
    "High-energy club banger with Afrobeat-influenced percussion, pitched-up vocal samples, and a beat drop that hits like a freight train. Mood: Party, Unstoppable.",
    "Futuristic drill beat with icy synths, rapid hi-hat rolls, and cinematic FX — imagine Blade Runner meets Pop Smoke. Mood: Cold, Intense." ]

/-- The five COUNTRY candidate prompts of the genre prompt table,
    transcribed verbatim from the MUSIC_PROMPTS_BY_GENRE section of the
    CLAUDE.rules configuration (src/unnamed/part_001, lines 189-199). -/
def countryPrompts : List String :=
  [ "Southern backroad anthem with stomping drums, dirty slide guitar, and an outlaw vibe — perfect for a bonfire brawl. Mood: Rowdy, Rebel.",
    "Modern country-pop hit with upbeat acoustic strums, catchy hooks, and arena-sized choruses — made to belt in a pickup truck. Mood: Free, Wild.",
    "Banjo-driven country rock with a pounding kick, electric guitar solos, and whiskey-fueled energy. Mood: Bold, Celebratory.",
    "High-octane bluegrass fusion with double-time fiddle riffs, foot-stomping rhythm, and explosive breakdowns. Mood: Fast, Fiery.",
    "Dark country trap with ominous Dobro slides, moody pads, and deep bass — Johnny Cash meets trap house. Mood: Mysterious, Menacing." ]

/-- The GenrePromptTable: genre id to ordered candidate prompt list, from
    the MUSIC_PROMPTS_BY_GENRE section of src/unnamed/part_001. -/
def MUSIC_PROMPTS_BY_GENRE : List (String × List String) :=
  [ ("HIP_HOP", hipHopPrompts),
    ("COUNTRY", countryPrompts) ]

/-- Modelled from the spec: the fixed one-to-one internal-to-external
    genre vocabulary table of the resolver (spec sections 3 and 4.3,
    external ids from the backend API examples); the backend app/main.py
    is not under src/. -/
def GENRE_VOCAB : List (String × String) :=
  [ ("HIP_HOP", "hip_hop"),
    ("COUNTRY", "country") ]

/-- The resolver error of the claims (spec sections 4.3 and 7). -/
inductive ResolveError
  | unknownGenre
deriving Repr, DecidableEq

/-- The consistent template appending the learning topic to a candidate
    prompt (spec section 4.3). -/
def promptTemplate (p topic : String) : String :=
  p ++ ". Topic: " ++ topic ++ "."

/-- Modelled from the spec: the deterministic topic-seeded choice of one
    candidate prompt (spec section 4.3); the backend app/main.py is not
    under src/. -/
def chooseCandidate (prompts : List String) (topic : String) : String :=
  prompts.getD (topic.length % prompts.length) ""

/-- Modelled from the spec: the Genre/Prompt Resolver (spec section 4.3);
    the backend app/main.py is not under src/. A custom prompt is used
    verbatim; otherwise the genre is looked up in the prompt table, one
    candidate is chosen deterministically and the topic is appended in the
    fixed template. A genre absent from the vocabulary table or from the
    prompt table fails with UnknownGenre; no default prompt exists. -/
def resolvePrompt (genre topic : String) (custom : Option String) :
    Except ResolveError (String × String) :=
  match GENRE_VOCAB.lookup genre with
  | none => Except.error ResolveError.unknownGenre
  | some ext =>
    match custom with
    | some c => Except.ok (c, ext)
    | none =>
      match MUSIC_PROMPTS_BY_GENRE.lookup genre with
      | none => Except.error ResolveError.unknownGenre
      | some prompts =>
        Except.ok (promptTemplate (chooseCandidate prompts topic) topic, ext)

/-- A poll response status (spec section 3, JobStatus states). -/
inductive PollStatus
  | pending
  | processing
  | completed (url : String)
  | failed
  | error
deriving Repr, DecidableEq

/-- Whether a poll status is terminal. -/
def PollStatus.isTerminal : PollStatus → Bool
  | .completed _ => true
  | .failed => true
  | .error => true
  | _ => false

/-- Outcome of a polling run (spec sections 4.2 and 7). -/
inductive PollOutcome
  | finished (url : String)
  | generationFailed
  | generationTimeout
deriving Repr, DecidableEq

/-- Modelled from the spec: the Async Job Poller loop (spec section 4.2);
    the backend app/main.py is not under src/. respond i is the status the
    provider returns to the i-th poll request; the second argument is the
    remaining wait budget counted in polls, the third the number of polls
    already issued. The loop stops at the first terminal status, or stops
    with GenerationTimeout once the budget is exhausted; the returned
    number counts every poll request the run issued. -/
def pollLoop (respond : Nat → PollStatus) : Nat → Nat → PollOutcome × Nat
  | 0, issued => (PollOutcome.generationTimeout, issued)
  | budget + 1, issued =>
    match respond issued with
    | PollStatus.completed url => (PollOutcome.finished url, issued + 1)
    | PollStatus.failed => (PollOutcome.generationFailed, issued + 1)
    | PollStatus.error => (PollOutcome.generationFailed, issued + 1)
    | PollStatus.pending => pollLoop respond budget (issued + 1)
    | PollStatus.processing => pollLoop respond budget (issued + 1)

/-- A whole polling run: outcome and total number of polls issued. -/
def runPoller (respond : Nat → PollStatus) (budget : Nat) : PollOutcome × Nat :=
  pollLoop respond budget 0

/-- A provider that never reaches a terminal state. -/
def alwaysPending : Nat → PollStatus := fun _ => PollStatus.pending

/-- A concrete auto-selector request with both genre and duration. -/
def musicAutoRequest : GenerationRequest :=
  { inputText := "Create a song about photosynthesis"
    learningTopic := "photosynthesis"
    selector := Selector.auto
    genre := some "hip_hop"
    duration := some 60
    customPrompt := none
    attachedFile := none }

end Mcp

namespace UiOne

/-- A state whose audio has a zero duration. -/
def zeroDurationState : State :=
  { initData with audioDuration := 0, currentAudioTime := 5 }

/-- A state a third of the way through the 63-second default audio. -/
def playingState : State :=
  { initData with currentAudioTime := 21 }

end UiOne

namespace UiTwo

/-- A state with a nonempty learning topic and no separate input text. -/
def topicOnlyState : State :=
  { initData with learningTopic := "photosynthesis" }

/-- A non-music API response, as an image result would arrive. -/
def imageResponse : ApiData :=
  { output := "https://example.com/cat.png"
    type := "image"
    title := ""
    lyrics := ""
    video_url := "" }

end UiTwo

/-- The prompt table has exactly the keys HIP_HOP and COUNTRY. -/
theorem table_lookup_eq (g : String) :
    Mcp.MUSIC_PROMPTS_BY_GENRE.lookup g =
      if g = "HIP_HOP" then some Mcp.hipHopPrompts
      else if g = "COUNTRY" then some Mcp.countryPrompts
      else none := by
  by_cases h1 : g = "HIP_HOP"
  · subst h1
    simp [Mcp.MUSIC_PROMPTS_BY_GENRE, List.lookup]
  · by_cases h2 : g = "COUNTRY"
    · subst h2
      simp [Mcp.MUSIC_PROMPTS_BY_GENRE, List.lookup]
    · have b1 : (g == "HIP_HOP") = false := beq_eq_false_iff_ne.mpr h1
      have b2 : (g == "COUNTRY") = false := beq_eq_false_iff_ne.mpr h2
      simp [Mcp.MUSIC_PROMPTS_BY_GENRE, List.lookup, b1, b2, h1, h2]

/-- The vocabulary table has exactly the keys HIP_HOP and COUNTRY. -/
theorem vocab_lookup_eq (g : String) :
    Mcp.GENRE_VOCAB.lookup g =
      if g = "HIP_HOP" then some "hip_hop"
      else if g = "COUNTRY" then some "country"
      else none := by
  by_cases h1 : g = "HIP_HOP"
  · subst h1
    simp [Mcp.GENRE_VOCAB, List.lookup]
  · by_cases h2 : g = "COUNTRY"
    · subst h2
      simp [Mcp.GENRE_VOCAB, List.lookup]
    · have b1 : (g == "HIP_HOP") = false := beq_eq_false_iff_ne.mpr h1
      have b2 : (g == "COUNTRY") = false := beq_eq_false_iff_ne.mpr h2
      simp [Mcp.GENRE_VOCAB, List.lookup, b1, b2, h1, h2]

/-- The deterministic candidate choice picks a member of the list. -/
theorem chooseCandidate_mem (prompts : List String) (topic : String)
    (h : prompts ≠ []) : Mcp.chooseCandidate prompts topic ∈ prompts := by
  unfold Mcp.chooseCandidate
  have hlen : 0 < prompts.length := List.length_pos.mpr h
  have hidx : topic.length % prompts.length < prompts.length :=
    Nat.mod_lt _ hlen
  rw [List.getD_eq_getElem?_getD, List.getElem?_eq_getElem hidx]
  exact List.getElem_mem hidx

/-- The templated prompt is never the empty string. -/
theorem promptTemplate_ne_empty (p topic : String) :
    Mcp.promptTemplate p topic ≠ "" := by
  intro h
  have hlen := congrArg String.length h
  have h9 : (". Topic: " : String).length = 9 := rfl
  have h1 : ("." : String).length = 1 := rfl
  have h0 : ("" : String).length = 0 := rfl
  simp [Mcp.promptTemplate, String.length_append, h9, h1, h0] at hlen

/-- A run of the poll loop that sees no terminal status spends its whole
    budget and stops with a timeout, issuing exactly budget polls. -/
theorem pollLoop_no_terminal (respond : Nat → Mcp.PollStatus) :
    ∀ budget issued : Nat,
      (∀ i, i < budget → (respond (issued + i)).isTerminal = false) →
      Mcp.pollLoop respond budget issued =
        (Mcp.PollOutcome.generationTimeout, issued + budget) := by
  intro budget
  induction budget with
  | zero => intro issued _; simp [Mcp.pollLoop]
  | succ n ih =>
    intro issued h
    have h0 : (respond issued).isTerminal = false := h 0 (Nat.succ_pos n)
    have hsum : issued + 1 + n = issued + (n + 1) := by omega
    have hnext : ∀ i, i < n → (respond (issued + 1 + i)).isTerminal = false := by
      intro i hi
      have := h (i + 1) (by omega)
      have harg : issued + 1 + i = issued + (i + 1) := by omega
      rw [harg]
      exact this
    cases hr : respond issued with
    | pending =>
      have := ih (issued + 1) hnext
      simp [Mcp.pollLoop, hr, this, hsum]
    | processing =>
      have := ih (issued + 1) hnext
      simp [Mcp.pollLoop, hr, this, hsum]
    | completed url => rw [hr] at h0; simp [Mcp.PollStatus.isTerminal] at h0
    | failed => rw [hr] at h0; simp [Mcp.PollStatus.isTerminal] at h0
    | error => rw [hr] at h0; simp [Mcp.PollStatus.isTerminal] at h0

/-- Claim C1 counterexample: in the processInput handler of the second UI,
    with a nonempty input text and an empty learning topic, validation
    still fails and no request is dispatched, so dispatch failure is not
    equivalent to both the input text and the learning topic being empty. -/
theorem processInput_validation_counterexample :
    ¬ (((UiTwo.processInput UiTwo.inputOnlyState).2 = none) ↔
        (UiTwo.inputOnlyState.userInput = "" ∧
          UiTwo.inputOnlyState.learningTopic = "")) := by
  intro h
  have h1 : (UiTwo.processInput UiTwo.inputOnlyState).2 = none := rfl
  have h2 := h.mp h1
  exact absurd h2.1 (by decide)

/-- Claim C1 (amended): the UI dispatch validation consults only the
    learning topic: when its trimmed value is empty the handler returns
    with no network call, and otherwise a request is dispatched carrying
    the topic, the selected genre, the beatoven model and the input text
    (defaulted from the topic when blank); the input text is never
    consulted by the validation. -/
theorem processInput_validates_topic_only :
    ∀ s : UiTwo.State,
      (jsTrim s.learningTopic = "" → UiTwo.processInput s = (s, none)) ∧
      (jsTrim s.learningTopic ≠ "" →
        ∃ body, (UiTwo.processInput s).2 = some body ∧
          body.learning_topic = s.learningTopic ∧
          body.genre = s.selectedGenre ∧
          body.model = "beatoven" ∧
          body.input = (if jsTrim s.userInput = "" then
              "Create a song about " ++ s.learningTopic else s.userInput)) := by
  intro s
  constructor
  · intro h
    simp [UiTwo.processInput, h]
  · intro h
    simp only [UiTwo.processInput, if_neg h]
    exact ⟨_, rfl, rfl, rfl, rfl, rfl⟩

/-- Witness for the amended claim C1 at concrete states. -/
theorem processInput_validates_topic_only_witness :
    UiTwo.processInput UiTwo.inputOnlyState = (UiTwo.inputOnlyState, none) ∧
    ∃ body, (UiTwo.processInput UiTwo.topicOnlyState).2 = some body ∧
      body.learning_topic = UiTwo.topicOnlyState.learningTopic ∧
      body.genre = UiTwo.topicOnlyState.selectedGenre ∧
      body.model = "beatoven" ∧
      body.input = (if jsTrim UiTwo.topicOnlyState.userInput = "" then
          "Create a song about " ++ UiTwo.topicOnlyState.learningTopic
        else UiTwo.topicOnlyState.userInput) :=
  ⟨(processInput_validates_topic_only UiTwo.inputOnlyState).1 (by decide),
    (processInput_validates_topic_only UiTwo.topicOnlyState).2 (by decide)⟩

/-- Claim C2: for a GenerationRequest whose selector is auto, the
    Dispatcher chooses by the fixed precedence: genre or duration present
    selects the music provider; otherwise an attached file with an image
    extension selects the image provider; otherwise the text provider.
    The video provider is never chosen by the heuristic, and the
    dispatcher uses the heuristic result under selector auto. -/
theorem auto_precedence :
    ∀ req : Mcp.GenerationRequest, req.selector = Mcp.Selector.auto →
      ((req.genre.isSome || req.duration.isSome) = true →
          Mcp.autoSelectProvider req = Mcp.Provider.music) ∧
      ((req.genre.isSome || req.duration.isSome) = false →
          Mcp.fileHasImageExtension req = true →
          Mcp.autoSelectProvider req = Mcp.Provider.image) ∧
      ((req.genre.isSome || req.duration.isSome) = false →
          Mcp.fileHasImageExtension req = false →
          Mcp.autoSelectProvider req = Mcp.Provider.text) ∧
      Mcp.autoSelectProvider req ≠ Mcp.Provider.video ∧
      Mcp.selectProvider req = Except.ok (Mcp.autoSelectProvider req) := by
  intro req hsel
  refine ⟨?_, ?_, ?_, ?_, ?_⟩
  · intro h
    simp [Mcp.autoSelectProvider, h]
  · intro h1 h2
    simp [Mcp.autoSelectProvider, h1, h2]
  · intro h1 h2
    simp [Mcp.autoSelectProvider, h1, h2]
  · unfold Mcp.autoSelectProvider
    split
    · simp
    · split <;> simp
  · simp [Mcp.selectProvider, hsel]

/-- Witness for claim C2: selector auto with both genre and duration
    present selects the music provider. -/
theorem auto_precedence_witness :
    Mcp.autoSelectProvider Mcp.musicAutoRequest = Mcp.Provider.music ∧
    Mcp.selectProvider Mcp.musicAutoRequest = Except.ok Mcp.Provider.music := by
  have h := auto_precedence Mcp.musicAutoRequest rfl
  refine ⟨h.1 rfl, ?_⟩
  rw [h.2.2.2.2, h.1 rfl]

/-- Claim C3: for every genre present in the GenrePromptTable and every
    topic, resolving with no custom prompt succeeds with a non-empty
    prompt that is one of the fixed candidate prompts of the genre with
    the topic appended in the fixed template, hence contains the topic. -/
theorem resolver_known_genre :
    ∀ (g : String) (prompts : List String),
      Mcp.MUSIC_PROMPTS_BY_GENRE.lookup g = some prompts →
      ∀ topic : String,
        ∃ p ext, p ∈ prompts ∧
          Mcp.resolvePrompt g topic none =
            Except.ok (Mcp.promptTemplate p topic, ext) ∧
          Mcp.promptTemplate p topic ≠ "" ∧
          ∃ pre post, Mcp.promptTemplate p topic = pre ++ topic ++ post := by
  intro g prompts hg topic
  rw [table_lookup_eq] at hg
  by_cases h1 : g = "HIP_HOP"
  · subst h1
    rw [if_pos rfl] at hg
    have hp : Mcp.hipHopPrompts = prompts := Option.some.inj hg
    subst hp
    refine ⟨Mcp.chooseCandidate Mcp.hipHopPrompts topic, "hip_hop",
      chooseCandidate_mem _ _ (by simp [Mcp.hipHopPrompts]), rfl,
      promptTemplate_ne_empty _ _,
      Mcp.chooseCandidate Mcp.hipHopPrompts topic ++ ". Topic: ", ".", rfl⟩
  · by_cases h2 : g = "COUNTRY"
    · subst h2
      rw [if_neg h1, if_pos rfl] at hg
      have hp : Mcp.countryPrompts = prompts := Option.some.inj hg
      subst hp
      refine ⟨Mcp.chooseCandidate Mcp.countryPrompts topic, "country",
        chooseCandidate_mem _ _ (by simp [Mcp.countryPrompts]), rfl,
        promptTemplate_ne_empty _ _,
        Mcp.chooseCandidate Mcp.countryPrompts topic ++ ". Topic: ", ".", rfl⟩
    · rw [if_neg h1, if_neg h2] at hg
      exact absurd hg (by simp)

/-- Witness for claim C3 at the HIP_HOP genre and a concrete topic. -/
theorem resolver_known_genre_witness :
    ∃ p ext, p ∈ Mcp.hipHopPrompts ∧
      Mcp.resolvePrompt "HIP_HOP" "photosynthesis" none =
        Except.ok (Mcp.promptTemplate p "photosynthesis", ext) ∧
      Mcp.promptTemplate p "photosynthesis" ≠ "" ∧
      ∃ pre post,
        Mcp.promptTemplate p "photosynthesis" = pre ++ "photosynthesis" ++ post :=
  resolver_known_genre "HIP_HOP" Mcp.hipHopPrompts rfl "photosynthesis"

/-- Claim C4: a genre id absent from the GenrePromptTable, or absent from
    the internal-to-external genre vocabulary, makes the resolver fail
    with UnknownGenre; it never returns a default prompt. -/
theorem resolver_unknown_genre :
    ∀ g topic : String,
      (Mcp.MUSIC_PROMPTS_BY_GENRE.lookup g = none ∨
        Mcp.GENRE_VOCAB.lookup g = none) →
      Mcp.resolvePrompt g topic none =
        Except.error Mcp.ResolveError.unknownGenre := by
  intro g topic h
  by_cases h1 : g = "HIP_HOP"
  · subst h1
    rw [table_lookup_eq, vocab_lookup_eq] at h
    simp at h
  · by_cases h2 : g = "COUNTRY"
    · subst h2
      rw [table_lookup_eq, vocab_lookup_eq] at h
      simp at h
    · have hv : Mcp.GENRE_VOCAB.lookup g = none := by
        rw [vocab_lookup_eq]
        simp [h1, h2]
      simp [Mcp.resolvePrompt, hv]

/-- Witness for claim C4 at a genre outside both tables. -/
theorem resolver_unknown_genre_witness :
    Mcp.resolvePrompt "polka" "photosynthesis" none =
      Except.error Mcp.ResolveError.unknownGenre :=
  resolver_unknown_genre "polka" "photosynthesis" (Or.inl (by decide))

/-- Claim C5: a polling run in which no response reaches a terminal state
    within the wait budget fails with GenerationTimeout, and the number of
    polls issued equals the budget exactly: no poll is issued after the
    budget is exhausted. -/
theorem poller_timeout_after_budget :
    ∀ (respond : Nat → Mcp.PollStatus) (budget : Nat),
      (∀ i, i < budget → (respond i).isTerminal = false) →
      Mcp.runPoller respond budget =
        (Mcp.PollOutcome.generationTimeout, budget) := by
  intro respond budget h
  have hrun := pollLoop_no_terminal respond budget 0 (by
    intro i hi
    have := h i hi
    simpa using this)
  simpa [Mcp.runPoller] using hrun

/-- Witness for claim C5: a provider that stays pending for a budget of
    three polls times out after exactly three polls. -/
theorem poller_timeout_after_budget_witness :
    Mcp.runPoller Mcp.alwaysPending 3 =
      (Mcp.PollOutcome.generationTimeout, 3) :=
  poller_timeout_after_budget Mcp.alwaysPending 3 (fun _ _ => rfl)

/-- Claim C6 counterexample: the first UI keeps dispatching while a
    request is already in flight: in a state with isLoading set and a
    nonempty topic, clicking Compose issues another network dispatch, so
    the UI does not disable re-submission. -/
theorem compose_no_inflight_guard_counterexample :
    ¬ (∀ s : UiOne.State, s.isLoading = true →
        ∀ e ∈ UiOne.generateMusicEffects s, e.isDispatch = false) := by
  intro hclaim
  have hmem : (UiOne.Effect.dispatch
      { learning_topic := "thermodynamics", genre := "hip-hop",
        model := "beatoven" })
      ∈ UiOne.generateMusicEffects UiOne.busyState := by decide
  have := hclaim UiOne.busyState rfl _ hmem
  simp [UiOne.Effect.isDispatch] at this

/-- Claim C6 (amended): the UI sets the isLoading flag while a dispatch is
    in flight, but neither click handler consults it and the compose
    buttons are never disabled: a click during an in-flight request with a
    nonempty trimmed topic issues another dispatch, so re-submission is
    not prevented. -/
theorem compose_dispatches_while_loading :
    ∀ s : UiOne.State, s.isLoading = true → jsTrim s.learningTopic ≠ "" →
      ∃ body, UiOne.Effect.dispatch body ∈ UiOne.generateMusicEffects s ∧
        body.learning_topic = s.learningTopic ∧
        body.genre = s.selectedGenre := by
  intro s _ h
  have heff : UiOne.generateMusicEffects s =
      [UiOne.Effect.dispatch
        { learning_topic := s.learningTopic, genre := s.selectedGenre,
          model := "beatoven" }] := by
    simp [UiOne.generateMusicEffects, h]
  exact ⟨_, by rw [heff]; exact List.mem_singleton.mpr rfl, rfl, rfl⟩

/-- Witness for the amended claim C6 at the busy state. -/
theorem compose_dispatches_while_loading_witness :
    ∃ body,
      UiOne.Effect.dispatch body ∈ UiOne.generateMusicEffects UiOne.busyState ∧
      body.learning_topic = UiOne.busyState.learningTopic ∧
      body.genre = UiOne.busyState.selectedGenre :=
  compose_dispatches_while_loading UiOne.busyState rfl (by decide)

/-- Claim C7: the initial component state of the first UI, before any
    request is made or any provider artifact exists (audioUrl is empty),
    already renders hardcoded sample lyrics through the real-lyrics branch
    of the lyrics pane and a placeholder song title with a fixed 63-second
    duration, i.e. a generic fallback artifact is displayed as if it were
    generated output. -/
theorem initial_state_shows_hardcoded_lyrics :
    UiOne.lyricsPane UiOne.initData =
      UiOne.LyricsView.shown
        "Psst, I see dead people\n(Mustard on the beat, ho)\nAyy, Mustard on the beat, ho" ∧
    UiOne.initData.audioUrl = "" ∧
    UiOne.initData.songTitle = "Song Title" ∧
    UiOne.initData.audioDuration = 63 := by
  refine ⟨?_, rfl, rfl, by norm_num [UiOne.initData]⟩
  decide

/-- Claim C8: for every API response whose type is not music, the second
    UI handleApiResponse updates only output and outputType; audioUrl,
    songTitle, lyricsText and videoUrl keep their previous values. -/
theorem handleApiResponse_nonmusic_frame :
    ∀ (s : UiTwo.State) (d : UiTwo.ApiData), d.type ≠ "music" →
      (UiTwo.handleApiResponse s d).audioUrl = s.audioUrl ∧
      (UiTwo.handleApiResponse s d).songTitle = s.songTitle ∧
      (UiTwo.handleApiResponse s d).lyricsText = s.lyricsText ∧
      (UiTwo.handleApiResponse s d).videoUrl = s.videoUrl ∧
      (UiTwo.handleApiResponse s d).output = some d.output ∧
      (UiTwo.handleApiResponse s d).outputType = d.type := by
  intro s d h
  simp [UiTwo.handleApiResponse, h]

/-- Witness for claim C8 at the initial state and an image response. -/
theorem handleApiResponse_nonmusic_frame_witness :
    (UiTwo.handleApiResponse UiTwo.initData UiTwo.imageResponse).audioUrl =
      UiTwo.initData.audioUrl ∧
    (UiTwo.handleApiResponse UiTwo.initData UiTwo.imageResponse).songTitle =
      UiTwo.initData.songTitle ∧
    (UiTwo.handleApiResponse UiTwo.initData UiTwo.imageResponse).lyricsText =
      UiTwo.initData.lyricsText ∧
    (UiTwo.handleApiResponse UiTwo.initData UiTwo.imageResponse).videoUrl =
      UiTwo.initData.videoUrl ∧
    (UiTwo.handleApiResponse UiTwo.initData UiTwo.imageResponse).output =
      some UiTwo.imageResponse.output ∧
    (UiTwo.handleApiResponse UiTwo.initData UiTwo.imageResponse).outputType =
      UiTwo.imageResponse.type :=
  handleApiResponse_nonmusic_frame UiTwo.initData UiTwo.imageResponse
    (by decide)

/-- Claim C9: displayedGenres equals the full static 17-genre list when
    the trimmed search input is empty, otherwise exactly the genres of the
    static list whose lowercased name includes the lowercased input, and
    it never contains a genre outside the static list. -/
theorem displayedGenres_spec :
    ∀ s : UiOne.State,
      (jsTrim s.genreInput = "" → UiOne.displayedGenres s = UiOne.genres) ∧
      (jsTrim s.genreInput ≠ "" →
        UiOne.displayedGenres s =
          UiOne.genres.filter
            (fun g => UiOne.jsIncludes (jsToLower g.name) (jsToLower s.genreInput))) ∧
      UiOne.genres.length = 17 ∧
      ∀ g ∈ UiOne.displayedGenres s, g ∈ UiOne.genres := by
  intro s
  refine ⟨?_, ?_, rfl, ?_⟩
  · intro h
    simp [UiOne.displayedGenres, h]
  · intro h
    simp [UiOne.displayedGenres, h]
  · intro g hg
    unfold UiOne.displayedGenres at hg
    split at hg
    · exact hg
    · exact List.mem_of_mem_filter hg

/-- Witness for claim C9: the empty search shows all 17 genres, and the
    search rock shows exactly the two genres whose name contains rock. -/
theorem displayedGenres_spec_witness :
    UiOne.displayedGenres UiOne.initData = UiOne.genres ∧
    UiOne.displayedGenres UiOne.rockSearchState =
      [ { id := "rock", name := "Rock" },
        { id := "rock-and-roll", name := "Rock and roll" } ] := by
  constructor
  · exact (displayedGenres_spec UiOne.initData).1 (by decide)
  · rw [(displayedGenres_spec UiOne.rockSearchState).2.1 (by decide)]
    decide

/-- Claim C10: progressPercentage is total: it returns 0 when
    audioDuration is 0 without reaching the division, and otherwise
    returns currentAudioTime divided by audioDuration times 100. -/
theorem progressPercentage_total :
    ∀ s : UiOne.State,
      (s.audioDuration = 0 → UiOne.progressPercentage s = 0) ∧
      (s.audioDuration ≠ 0 →
        UiOne.progressPercentage s =
          s.currentAudioTime / s.audioDuration * 100) := by
  intro s
  constructor <;> intro h <;> simp [UiOne.progressPercentage, h]

/-- Witness for claim C10 at a zero-duration state and at the initial
    63-second state a third of the way through. -/
theorem progressPercentage_total_witness :
    UiOne.progressPercentage UiOne.zeroDurationState = 0 ∧
    UiOne.progressPercentage UiOne.playingState = 21 / 63 * 100 := by
  constructor
  · exact (progressPercentage_total UiOne.zeroDurationState).1 rfl
  · exact (progressPercentage_total UiOne.playingState).2 (by norm_num [UiOne.playingState, UiOne.initData])
